import Mathlib

/-!
Shallow embedding of the `providerauthorizer` HTTP middleware from
`internal/http/interceptors/providerauthorizer/providerauthorizer.go`.

The middleware gates requests under a configured path prefix ("ocm" by
default): it extracts a Basic-Auth username, resolves it against a gateway
identity service, extracts the domain of the matched user's e-mail and asks a
pluggable authorizer whether that provider domain is allowed.  The handler is
modelled as a pure function from the request and its external collaborators
(gateway-client pool and authorizer) to an outcome paired with a trace of the
collaborator calls it performed, in order.
-/

namespace ProviderAuthorizer

/-- A candidate user record returned by the identity resolver
(`userpb.User`, the fields the handler reads: `Username` and `Mail`). -/
structure User where
  Username : String
  Mail : String
deriving DecidableEq

/-- The slice of an incoming `http.Request` the handler inspects:
`r.URL.Path` and the result of `r.BasicAuth()` (`none` when the header is
absent or malformed, otherwise the username/password pair). -/
structure Request where
  URLPath : String
  basicAuth : Option (String × String)
deriving DecidableEq

/-- What the handler does with the response: either it writes a status header
and returns, or it invokes the downstream handler `h.ServeHTTP(w, r)` with a
request, or it dereferences the nil `userAuth` pointer (`userAuth.Mail` with
no matching user), a runtime panic in Go. -/
inductive Outcome where
  | writeHeader (code : Nat)
  | next (r : Request)
  | nilDeref
deriving DecidableEq

/-- One call to an external collaborator, recorded in order. -/
inductive Call where
  | getGatewayClient (svc : String)
  | findUsers (filter : String)
  | isProviderAllowed (domain : String)
deriving DecidableEq

/-- `provider.Authorizer.IsProviderAllowed(ctx, domain)`: `none` means the
provider is allowed (nil error); `some e` is the returned error. -/
def Authorizer : Type := String → Option String

/-- The gateway client's `FindUsers` call: filter string to either a
transport/service error or the returned list of candidate users. -/
def GatewayClient : Type := String → Except String (List User)

/-- The external collaborators the handler reaches through the process-wide
pool: `pool.GetGatewayServiceClient(svc)` yields an error or a client. -/
structure Env where
  getGatewayServiceClient : String → Except String GatewayClient

/-- An opaque per-driver settings bag (`map[string]interface{}`), passed
verbatim to the chosen driver's factory and not interpreted by this code. -/
def Settings : Type := List (String × String)

/-- A driver factory from `registry.NewFuncs`: settings bag to an authorizer
or a construction error. -/
def Factory : Type := Settings → Except String Authorizer

/-- The decoded middleware configuration (struct `config`). `Drivers` is the
map from driver name to its settings bag; a Go map lookup of an absent key
yields the zero value, so it is modelled as a total function. -/
structure Config where
  Driver : String
  Drivers : String → Settings
  OCMPrefix : String
  GatewaySvc : String

/-- `defaultPriority = 200`. -/
def defaultPriority : Nat := 200

/-- Splitting a character list around every occurrence of a separator
character; always returns at least one (possibly empty) part. -/
def splitChars (sep : Char) : List Char → List (List Char)
  | [] => [[]]
  | c :: rest =>
    let r := splitChars sep rest
    if c = sep then [] :: r
    else
      match r with
      | [] => [[c]]
      | h :: t => (c :: h) :: t

/-- Go's `strings.Split(s, sep)` for a single-character separator: the
substrings of `s` between occurrences of `sep`; `[""]` for the empty string,
and empty parts are kept (`"a@"` splits into `["a", ""]`). -/
def goSplit (s : String) (sep : Char) : List String :=
  (splitChars sep s.data).map String.mk

/-- Modelled from the spec: `router.ShiftPath` is not under `src/`; per the
spec the activation check "take[s] the first path segment of the request
URL". Splitting the path on `/` and dropping empty components, the first
component is that segment (empty for `""` or `"/"`). -/
def firstPathSegment (p : String) : String :=
  (((goSplit p '/').filter (fun s => s ≠ "")).headD "")

/-- Modelled from the spec: `sharedconf.GetGatewaySVC` is not under `src/`;
per the spec the gateway/service address defaults "from shared configuration
if empty". -/
def GetGatewaySVC (sharedDefault : String) (v : String) : String :=
  if v = "" then sharedDefault else v

/-- The default-filling step of `New`: `conf.GatewaySvc` from shared
configuration, `conf.OCMPrefix` defaulting to `"ocm"` when empty. -/
def applyDefaults (sharedGatewaySvc : String) (conf : Config) : Config :=
  { conf with
    GatewaySvc := GetGatewaySVC sharedGatewaySvc conf.GatewaySvc
    OCMPrefix := if conf.OCMPrefix = "" then "ocm" else conf.OCMPrefix }

/-- `getDriver`: look the configured driver name up in `registry.NewFuncs`
(passed explicitly here); on a hit, apply the factory to that driver's
settings bag; otherwise fail with the "driver not found" error. -/
def getDriver (NewFuncs : String → Option Factory) (c : Config) :
    Except String Authorizer :=
  match NewFuncs c.Driver with
  | some f => f (c.Drivers c.Driver)
  | none =>
      Except.error ("driver " ++ c.Driver ++ " not found for provider authorizer")

/-- The request handler closure built inside `New`, as a pure function of the
configuration, the authorizer constructed at build time, the environment and
the request.  Returns the outcome together with the ordered trace of
collaborator calls. -/
def handler (conf : Config) (authorizer : Authorizer) (env : Env)
    (r : Request) : Outcome × List Call :=
  if firstPathSegment r.URLPath ≠ conf.OCMPrefix then
    (Outcome.next r, [])
  else
    match r.basicAuth with
    | none => (Outcome.writeHeader 401, [])
    | some (username, _pw) =>
      match env.getGatewayServiceClient conf.GatewaySvc with
      | Except.error _ =>
          (Outcome.writeHeader 500, [Call.getGatewayClient conf.GatewaySvc])
      | Except.ok gatewayClient =>
        match gatewayClient username with
        | Except.error _ =>
            (Outcome.writeHeader 500,
              [Call.getGatewayClient conf.GatewaySvc, Call.findUsers username])
        | Except.ok users =>
          match users.find? (fun u => u.Username == username) with
          | none =>
              (Outcome.nilDeref,
                [Call.getGatewayClient conf.GatewaySvc, Call.findUsers username])
          | some userAuth =>
            let domainSplit := goSplit userAuth.Mail '@'
            if domainSplit.length ≠ 2 then
              (Outcome.writeHeader 400,
                [Call.getGatewayClient conf.GatewaySvc, Call.findUsers username])
            else
              match authorizer (domainSplit.getD 1 "") with
              | some _ =>
                  (Outcome.writeHeader 401,
                    [Call.getGatewayClient conf.GatewaySvc, Call.findUsers username,
                      Call.isProviderAllowed (domainSplit.getD 1 "")])
              | none =>
                  (Outcome.next r,
                    [Call.getGatewayClient conf.GatewaySvc, Call.findUsers username,
                      Call.isProviderAllowed (domainSplit.getD 1 "")])

/-- `New`: fill configuration defaults, resolve the driver (aborting
construction on error), and return the handler closure together with the
fixed priority. -/
def New (NewFuncs : String → Option Factory) (sharedGatewaySvc : String)
    (conf0 : Config) :
    Except String ((Env → Request → Outcome × List Call) × Nat) :=
  let conf := applyDefaults sharedGatewaySvc conf0
  match getDriver NewFuncs conf with
  | Except.error e => Except.error e
  | Except.ok authorizer => Except.ok (handler conf authorizer, defaultPriority)

/-! Concrete fixtures used by witnesses and counterexamples. -/

/-- An authorizer that allows every domain (always returns nil error). -/
def allowAll : Authorizer := fun _ => none

/-- A configuration fixture: driver `"mock"`, empty settings bags, prefix
`"ocm"`, gateway address `"gw"`. -/
def confEx : Config :=
  { Driver := "mock", Drivers := fun _ => [], OCMPrefix := "ocm",
    GatewaySvc := "gw" }

/-- A user record fixture with a well-formed e-mail. -/
def aliceUser : User := { Username := "alice", Mail := "alice@example.org" }

/-- A gateway client whose `FindUsers` always returns `[aliceUser]`. -/
def clientOk : GatewayClient := fun _ => Except.ok [aliceUser]

/-- An environment whose pool always hands out the given client. -/
def envOf (c : GatewayClient) : Env :=
  { getGatewayServiceClient := fun _ => Except.ok c }

/-- An environment whose pool always hands out `clientOk`. -/
def envOk : Env := envOf clientOk

/-- A request under the `"ocm"` prefix carrying Basic-Auth credentials for
`"alice"`. -/
def reqOcm : Request :=
  { URLPath := "/ocm/shares", basicAuth := some ("alice", "secret") }

/-! Claims. -/

/-- Claim C3: for every request whose first path segment does not equal the
configured prefix, the request is forwarded to the downstream handler
unmodified (outcome `next r` with the original request), and no
identity-resolution call and no authorizer call occurs (empty call trace). -/
theorem C3_prefix_mismatch_passthrough (conf : Config) (a : Authorizer)
    (env : Env) (r : Request)
    (h : firstPathSegment r.URLPath ≠ conf.OCMPrefix) :
    handler conf a env r = (Outcome.next r, []) := by
  unfold handler
  rw [if_pos h]

/-- Witness for C3 at a concrete request outside the prefix. -/
theorem C3_prefix_mismatch_passthrough_witness :
    handler confEx allowAll envOk { URLPath := "/other/x", basicAuth := none } =
      (Outcome.next { URLPath := "/other/x", basicAuth := none }, []) :=
  C3_prefix_mismatch_passthrough confEx allowAll envOk
    { URLPath := "/other/x", basicAuth := none } (by decide)

/-- Claim C4: for every request under the prefix carrying no Basic-Auth
credentials, the handler writes status 401 and the downstream handler is
never invoked (the outcome is `writeHeader 401`, not `next`). -/
theorem C4_missing_credentials_401 (conf : Config) (a : Authorizer)
    (env : Env) (r : Request)
    (hpath : firstPathSegment r.URLPath = conf.OCMPrefix)
    (hba : r.basicAuth = none) :
    handler conf a env r = (Outcome.writeHeader 401, []) := by
  unfold handler
  rw [if_neg (by simp [hpath])]
  simp only [hba]

/-- Witness for C4 at a concrete request under the prefix without
credentials. -/
theorem C4_missing_credentials_401_witness :
    handler confEx allowAll envOk { URLPath := "/ocm/shares", basicAuth := none } =
      (Outcome.writeHeader 401, []) :=
  C4_missing_credentials_401 confEx allowAll envOk
    { URLPath := "/ocm/shares", basicAuth := none } (by decide) rfl

/-- Claim C10: for every request under the prefix with credentials, the
handler first acquires the gateway client; if that acquisition fails it
writes status 500 and the downstream handler is never invoked, without ever
reaching the identity lookup. -/
theorem C10_pool_error_500 (conf : Config) (a : Authorizer) (env : Env)
    (r : Request) (username pw e : String)
    (hpath : firstPathSegment r.URLPath = conf.OCMPrefix)
    (hba : r.basicAuth = some (username, pw))
    (hpool : env.getGatewayServiceClient conf.GatewaySvc = Except.error e) :
    handler conf a env r =
      (Outcome.writeHeader 500, [Call.getGatewayClient conf.GatewaySvc]) := by
  unfold handler
  rw [if_neg (by simp [hpath])]
  simp only [hba, hpool]

/-- Witness for C10 at a concrete request with a pool that fails. -/
theorem C10_pool_error_500_witness :
    handler confEx allowAll
      { getGatewayServiceClient := fun _ => Except.error "down" } reqOcm =
      (Outcome.writeHeader 500, [Call.getGatewayClient "gw"]) :=
  C10_pool_error_500 confEx allowAll
    { getGatewayServiceClient := fun _ => Except.error "down" } reqOcm
    "alice" "secret" "down" (by decide) rfl rfl

/-- Claim C5: for every request under the prefix with credentials, if the
identity-resolution call (`FindUsers`) returns an error, the handler writes
status 500 and the downstream handler is never invoked. -/
theorem C5_find_users_error_500 (conf : Config) (a : Authorizer) (env : Env)
    (r : Request) (username pw e : String) (client : GatewayClient)
    (hpath : firstPathSegment r.URLPath = conf.OCMPrefix)
    (hba : r.basicAuth = some (username, pw))
    (hpool : env.getGatewayServiceClient conf.GatewaySvc = Except.ok client)
    (hfind : client username = Except.error e) :
    handler conf a env r =
      (Outcome.writeHeader 500,
        [Call.getGatewayClient conf.GatewaySvc, Call.findUsers username]) := by
  unfold handler
  rw [if_neg (by simp [hpath])]
  simp only [hba, hpool, hfind]

/-- Witness for C5 at a concrete request whose user lookup fails. -/
theorem C5_find_users_error_500_witness :
    handler confEx allowAll (envOf (fun _ => Except.error "transport")) reqOcm =
      (Outcome.writeHeader 500,
        [Call.getGatewayClient "gw", Call.findUsers "alice"]) :=
  C5_find_users_error_500 confEx allowAll
    (envOf (fun _ => Except.error "transport")) reqOcm
    "alice" "secret" "transport" (fun _ => Except.error "transport")
    (by decide) rfl rfl rfl

/-- Claim C1 (code bug, evaluated at the failing input): when the identity
lookup succeeds but returns no candidate whose `Username` equals the
extracted username, the handler does not write 401; it proceeds to
`userAuth.Mail` with the nil `userAuth` pointer and crashes (modelled as
`Outcome.nilDeref`), instead of the denial the spec requires. -/
theorem C1_no_match_nil_deref :
    handler confEx allowAll
      (envOf (fun _ => Except.ok [{ Username := "bob", Mail := "bob@example.org" }]))
      reqOcm =
      (Outcome.nilDeref, [Call.getGatewayClient "gw", Call.findUsers "alice"]) := by
  decide

/-- Counterexample to Claim C2 as stated: the e-mail `"alice@"` splits on
`'@'` into exactly two parts, the second empty, so the split does not yield
two non-empty parts — yet the handler does not write 400: it invokes the
authorizer with the empty domain `""` and passes the request through. -/
theorem C2_empty_domain_counterexample :
    handler confEx allowAll
      (envOf (fun _ => Except.ok [{ Username := "alice", Mail := "alice@" }]))
      reqOcm =
      (Outcome.next reqOcm,
        [Call.getGatewayClient "gw", Call.findUsers "alice",
          Call.isProviderAllowed ""]) ∧
    (handler confEx allowAll
      (envOf (fun _ => Except.ok [{ Username := "alice", Mail := "alice@" }]))
      reqOcm).1 ≠ Outcome.writeHeader 400 := by
  constructor
  · decide
  · decide

/-- Claim C2 as amended: for every request under the prefix that reaches
domain extraction, the selected user's e-mail is split on `'@'`, and whenever
the split does not yield exactly two parts — parts may be empty, so this
covers only e-mails with no `'@'` or with more than one `'@'` — the handler
writes status 400 and stops without invoking the authorizer. -/
theorem C2_bad_split_400 (conf : Config) (a : Authorizer) (env : Env)
    (r : Request) (username pw : String) (client : GatewayClient)
    (users : List User) (userAuth : User)
    (hpath : firstPathSegment r.URLPath = conf.OCMPrefix)
    (hba : r.basicAuth = some (username, pw))
    (hpool : env.getGatewayServiceClient conf.GatewaySvc = Except.ok client)
    (husers : client username = Except.ok users)
    (hmatch : users.find? (fun u => u.Username == username) = some userAuth)
    (hsplit : (goSplit userAuth.Mail '@').length ≠ 2) :
    handler conf a env r =
      (Outcome.writeHeader 400,
        [Call.getGatewayClient conf.GatewaySvc, Call.findUsers username]) := by
  unfold handler
  rw [if_neg (by simp [hpath])]
  simp only [hba, hpool, husers, hmatch]
  rw [if_pos hsplit]

/-- Witness for the amended C2 at a concrete user whose e-mail `"nodomain"`
has no `'@'`. -/
theorem C2_bad_split_400_witness :
    handler confEx allowAll
      (envOf (fun _ => Except.ok [{ Username := "alice", Mail := "nodomain" }]))
      reqOcm =
      (Outcome.writeHeader 400,
        [Call.getGatewayClient "gw", Call.findUsers "alice"]) :=
  C2_bad_split_400 confEx allowAll
    (envOf (fun _ => Except.ok [{ Username := "alice", Mail := "nodomain" }]))
    reqOcm "alice" "secret"
    (fun _ => Except.ok [{ Username := "alice", Mail := "nodomain" }])
    [{ Username := "alice", Mail := "nodomain" }]
    { Username := "alice", Mail := "nodomain" }
    (by decide) rfl rfl rfl (by decide) (by decide)

/-- Claim C6: for every request under the prefix that reaches the
authorization decision, if the authorizer's `IsProviderAllowed` returns any
error, the handler writes status 401 and the downstream handler is never
invoked. -/
theorem C6_authorizer_error_401 (conf : Config) (a : Authorizer) (env : Env)
    (r : Request) (username pw e : String) (client : GatewayClient)
    (users : List User) (userAuth : User)
    (hpath : firstPathSegment r.URLPath = conf.OCMPrefix)
    (hba : r.basicAuth = some (username, pw))
    (hpool : env.getGatewayServiceClient conf.GatewaySvc = Except.ok client)
    (husers : client username = Except.ok users)
    (hmatch : users.find? (fun u => u.Username == username) = some userAuth)
    (hlen : (goSplit userAuth.Mail '@').length = 2)
    (hauth : a ((goSplit userAuth.Mail '@').getD 1 "") = some e) :
    handler conf a env r =
      (Outcome.writeHeader 401,
        [Call.getGatewayClient conf.GatewaySvc, Call.findUsers username,
          Call.isProviderAllowed ((goSplit userAuth.Mail '@').getD 1 "")]) := by
  unfold handler
  rw [if_neg (by simp [hpath])]
  simp only [hba, hpool, husers, hmatch]
  rw [if_neg (by simp [hlen])]
  simp only [hauth]

/-- Witness for C6 at a concrete user of a denied domain. -/
theorem C6_authorizer_error_401_witness :
    handler confEx (fun _ => some "not allowed")
      (envOf (fun _ => Except.ok [{ Username := "alice", Mail := "bob@badcorp.com" }]))
      reqOcm =
      (Outcome.writeHeader 401,
        [Call.getGatewayClient "gw", Call.findUsers "alice",
          Call.isProviderAllowed "badcorp.com"]) :=
  C6_authorizer_error_401 confEx (fun _ => some "not allowed")
    (envOf (fun _ => Except.ok [{ Username := "alice", Mail := "bob@badcorp.com" }]))
    reqOcm "alice" "secret" "not allowed"
    (fun _ => Except.ok [{ Username := "alice", Mail := "bob@badcorp.com" }])
    [{ Username := "alice", Mail := "bob@badcorp.com" }]
    { Username := "alice", Mail := "bob@badcorp.com" }
    (by decide) rfl rfl rfl (by decide) (by decide) rfl

/-- Claim C7: for every request under the prefix where the lookup returns a
user matching the username exactly with e-mail `"alice@example.org"` and the
authorizer allows that domain, the authorizer is invoked with exactly
`"example.org"` and the downstream handler is invoked with the original
request. -/
theorem C7_allowed_passthrough (conf : Config) (a : Authorizer) (env : Env)
    (r : Request) (username pw : String) (client : GatewayClient)
    (users : List User) (userAuth : User)
    (hpath : firstPathSegment r.URLPath = conf.OCMPrefix)
    (hba : r.basicAuth = some (username, pw))
    (hpool : env.getGatewayServiceClient conf.GatewaySvc = Except.ok client)
    (husers : client username = Except.ok users)
    (hmatch : users.find? (fun u => u.Username == username) = some userAuth)
    (hmail : userAuth.Mail = "alice@example.org")
    (hauth : a "example.org" = none) :
    handler conf a env r =
      (Outcome.next r,
        [Call.getGatewayClient conf.GatewaySvc, Call.findUsers username,
          Call.isProviderAllowed "example.org"]) := by
  have hs : goSplit "alice@example.org" '@' = ["alice", "example.org"] := by
    decide
  unfold handler
  rw [if_neg (by simp [hpath])]
  simp only [hba, hpool, husers, hmatch, hmail, hs]
  rw [if_neg (by simp)]
  simp only [List.getD, hauth]
  simp [hauth]

/-- Witness for C7 at a concrete allowed user. -/
theorem C7_allowed_passthrough_witness :
    handler confEx allowAll envOk reqOcm =
      (Outcome.next reqOcm,
        [Call.getGatewayClient "gw", Call.findUsers "alice",
          Call.isProviderAllowed "example.org"]) :=
  C7_allowed_passthrough confEx allowAll envOk reqOcm "alice" "secret"
    clientOk [aliceUser] aliceUser
    (by decide) rfl rfl rfl (by decide) (by decide) rfl

/-- Claim C8: when the configured driver name has no registered factory,
`New` returns the "driver not found" error and no handler; when the name is
registered and the factory succeeds, `New` returns the handler built over the
factory's output authorizer (applied to that driver's settings bag) together
with the default priority. -/
theorem C8_driver_resolution (NewFuncs : String → Option Factory)
    (sharedGatewaySvc : String) (conf : Config) :
    (NewFuncs conf.Driver = none →
      New NewFuncs sharedGatewaySvc conf =
        Except.error
          ("driver " ++ conf.Driver ++ " not found for provider authorizer")) ∧
    (∀ f a, NewFuncs conf.Driver = some f →
      f (conf.Drivers conf.Driver) = Except.ok a →
      New NewFuncs sharedGatewaySvc conf =
        Except.ok (handler (applyDefaults sharedGatewaySvc conf) a,
          defaultPriority)) := by
  constructor
  · intro h
    simp [New, getDriver, applyDefaults, h]
  · intro f a hf ha
    simp [New, getDriver, applyDefaults, hf, ha]

/-- Witness for C8: a one-entry registry; the registered name `"mock"`
yields the handler with the factory's authorizer, the unregistered name
`"absent"` fails construction. -/
theorem C8_driver_resolution_witness :
    New (fun name => if name = "mock" then some (fun _ => Except.ok allowAll) else none)
      "gw" confEx =
      Except.ok (handler (applyDefaults "gw" confEx) allowAll, defaultPriority) ∧
    New (fun name => if name = "mock" then some (fun _ => Except.ok allowAll) else none)
      "gw" { confEx with Driver := "absent" } =
      Except.error "driver absent not found for provider authorizer" :=
  ⟨(C8_driver_resolution
      (fun name => if name = "mock" then some (fun _ => Except.ok allowAll) else none)
      "gw" confEx).2 (fun _ => Except.ok allowAll) allowAll rfl rfl,
    (C8_driver_resolution
      (fun name => if name = "mock" then some (fun _ => Except.ok allowAll) else none)
      "gw" { confEx with Driver := "absent" }).1 rfl⟩

/-- Claim C9: the handler is deterministic in its collaborators — with the
same configuration, authorizer and request, two environments whose gateway
pools answer identically at the configured address produce identical
outcomes and traces; no other state influences the result. -/
theorem C9_deterministic (conf : Config) (a : Authorizer) (env1 env2 : Env)
    (r : Request)
    (h : env1.getGatewayServiceClient conf.GatewaySvc =
      env2.getGatewayServiceClient conf.GatewaySvc) :
    handler conf a env1 r = handler conf a env2 r := by
  unfold handler
  rw [h]

/-- Witness for C9: two syntactically different environments agreeing at the
configured gateway address give the same result. -/
theorem C9_deterministic_witness :
    handler confEx allowAll envOk reqOcm =
      handler confEx allowAll
        { getGatewayServiceClient := fun s =>
            if s = "gw" then Except.ok clientOk else Except.error "down" }
        reqOcm :=
  C9_deterministic confEx allowAll envOk
    { getGatewayServiceClient := fun s =>
        if s = "gw" then Except.ok clientOk else Except.error "down" }
    reqOcm rfl

end ProviderAuthorizer
